import Mathlib

/-!
Verification of the jobint-backend Matching & Application Pipeline.

This file shallowly embeds the JavaScript source of the repository:

* the basic matching service (`src/unnamed/part_000`): the pure scoring
  engine (`calculateMatchScore` and its five factor functions), the
  `matchJobsForUser` loop with its `ON CONFLICT DO NOTHING` insert into
  `job_matches`, and `reviewMatch`;
* the review routes (`src/services/guestApplication.js`,
  `src/unnamed/part_005`): the blind `UPDATE job_matches` and the
  conditional `INSERT INTO application_queue`;
* the BullMQ application worker (`src/unnamed/part_001`): per-attempt
  failure handling, the `job.attemptsMade < 3` retry check, and the
  exponential-backoff options of `queueApplication`;
* the AI scoring service (`src/services/matchingServices.js`):
  `calculateMatchScore`, whose skill factor is the response of an OpenAI
  chat call; that response is modelled as an explicit oracle argument.

JavaScript numbers are modelled as `Nat`/`ℚ` (all quantities involved are
non-negative), strings as `String`, absent/null strings as `""` or
`Option String` matching how the code tests truthiness, and fallible
database calls as `Except String`.
-/

/-- ASCII lowering of a string, character by character; models JavaScript
`String.prototype.toLowerCase` on the ASCII texts the matcher handles.
(Defined via `List.map` rather than `String.toLower` so that it reduces
definitionally.) -/
def strLower (s : String) : String := ⟨s.data.map Char.toLower⟩

/-- Substring containment on character lists: `containsSub hay needle` is
true iff `needle` occurs contiguously inside `hay`; models JavaScript
`hay.includes(needle)`. -/
def containsSub : List Char → List Char → Bool
  | hay, needle =>
    needle.isPrefixOf hay ||
      (match hay with
       | [] => false
       | _ :: t => containsSub t needle)

/-- JavaScript `hay.includes(needle)` on strings. -/
def jsIncludes (hay needle : String) : Bool := containsSub hay.data needle.data

/-- JavaScript `Math.round` for non-negative arguments: round half up. -/
def jsRoundNat (q : ℚ) : Nat := (⌊q + 1/2⌋).toNat

/-- Evaluation helper for `jsRoundNat` at concrete rationals. -/
theorem jsRoundNat_eq (q : ℚ) (n : Nat) (h : ⌊q + 1/2⌋ = (n : ℤ)) : jsRoundNat q = n := by
  unfold jsRoundNat
  rw [h]
  simp

/-- Numeric value of a list of decimal digit characters. -/
def digitsToNat (ds : List Char) : Nat := ds.foldl (fun a c => a * 10 + (c.toNat - 48)) 0

/-- Take greedily up to `n` further digit characters (the `\d{1,3}` part of
the salary regex after its first digit). -/
def takeDigitsUpTo : Nat → List Char → List Char × List Char
  | 0, cs => ([], cs)
  | _ + 1, [] => ([], [])
  | n + 1, c :: cs =>
    if c.isDigit then
      let r := takeDigitsUpTo n cs
      (c :: r.1, r.2)
    else ([], c :: cs)

/-- Greedy iteration of the `(?:,?\d{3})*` group of the salary regex: each
iteration consumes an optional comma followed by exactly three digits.
`fuel` bounds the recursion; callers pass the length of the input, which
always suffices since each iteration consumes at least three characters. -/
def takeGroupsF : Nat → List Char → List Char × List Char
  | 0, cs => ([], cs)
  | fuel + 1, cs =>
    match cs with
    | ',' :: a :: b :: c :: rest =>
      if a.isDigit && b.isDigit && c.isDigit then
        let r := takeGroupsF fuel rest
        (a :: b :: c :: r.1, r.2)
      else ([], cs)
    | a :: b :: c :: rest =>
      if a.isDigit && b.isDigit && c.isDigit then
        let r := takeGroupsF fuel rest
        (a :: b :: c :: r.1, r.2)
      else ([], cs)
    | _ => ([], cs)

/-- The optional `(?:\.\d+)?` decimal tail of the salary regex: a dot
followed by at least one digit, taken greedily. -/
def takeFrac : List Char → List Char
  | '.' :: c :: rest => if c.isDigit then (c :: rest).takeWhile Char.isDigit else []
  | _ => []

/-- Leftmost match of the salary regex `\$?(\d{1,3}(?:,?\d{3})*(?:\.\d+)?)`
(from `parseSalary` in `src/unnamed/part_000`, identical in
`src/services/matchingServices.js`). The captured group always starts at the
first digit of the input (an optional `$` immediately before it is consumed
but not captured). Returns the captured integer digits (commas dropped, as
the code strips them with `replace(/,/g,'')`) and the captured fractional
digits, or `none` when the string holds no digit, in which case the regex
cannot match. -/
def parseSalaryCore : List Char → Option (List Char × List Char)
  | [] => none
  | c :: cs =>
    if c.isDigit then
      let p1 := takeDigitsUpTo 2 cs
      let p2 := takeGroupsF p1.2.length p1.2
      some (c :: p1.1 ++ p2.1, takeFrac p2.2)
    else parseSalaryCore cs

/-- Embedding of `parseSalary(salaryString)` (`src/unnamed/part_000`
lines 251-259): `parseFloat` of the captured group with commas removed, `0`
when the regex finds no numeric token. -/
def parseSalary (s : String) : ℚ :=
  match parseSalaryCore s.data with
  | none => 0
  | some (ip, fp) => (digitsToNat ip : ℚ) + (digitsToNat fp : ℚ) / 10 ^ fp.length

/-! ## Basic matching service (`src/unnamed/part_000`) -/

/-- Row of `job_listings` as read by the basic matcher
(`SELECT id, title, company, location, description, salary_range,
remote_type, job_type`). `""` models SQL `NULL` for the text columns: both
are falsy where the code tests them. -/
structure JobListing where
  id : Nat
  title : String
  company : String
  location : String
  description : String
  salaryRange : String
  remoteType : String
  jobType : String
deriving DecidableEq, Repr

/-- The fields of a `user_profiles` row that the basic matcher reads:
`skills` and `desired_job_titles` after `JSON.parse`, `remote_preference`,
and `salary_min` (`0` models SQL `NULL`, which is equally falsy in the
`!profile.salary_min` test). -/
structure UserProfile where
  skills : List String
  desiredJobTitles : List String
  remotePreference : String
  salaryMin : Nat
deriving DecidableEq, Repr

/-- One entry of the `reasons` array built by `calculateMatchScore`. -/
structure Reason where
  type : String
  description : String
  weight : Nat
deriving DecidableEq, Repr

/-- Result of `calculateMatchScore`: the clamped total and the reasons. -/
structure Score where
  total : Nat
  reasons : List Reason
deriving DecidableEq, Repr

/-- Embedding of `matchSkills(userSkills, jobText)` (`src/unnamed/part_000`
lines 177-187): the fraction of the user's skills that occur
case-insensitively inside `jobText`, scaled to 40 points and rounded. -/
def matchSkills (userSkills : List String) (jobText : String) : Nat :=
  if userSkills.isEmpty || jobText = "" then 0
  else
    let jobTextLower := strLower jobText
    let matchedSkills := userSkills.filter (fun skill => jsIncludes jobTextLower (strLower skill))
    jsRoundNat ((matchedSkills.length : ℚ) / (userSkills.length : ℚ) * 40)

/-- Embedding of `matchTitle(desiredTitles, jobTitle)` (`src/unnamed/part_000`
lines 192-202): 25 points when some desired title and the job title contain
each other case-insensitively in either direction, else the default 5. -/
def matchTitle (desiredTitles : List String) (jobTitle : String) : Nat :=
  if desiredTitles.isEmpty || jobTitle = "" then 5
  else
    let jobTitleLower := strLower jobTitle
    if desiredTitles.any (fun t =>
        jsIncludes jobTitleLower (strLower t) || jsIncludes (strLower t) jobTitleLower)
    then 25 else 5

/-- Embedding of `matchLocation(profile, job)` (`src/unnamed/part_000`
lines 207-222). -/
def matchLocation (remotePreference jobRemoteType : String) : Nat :=
  if remotePreference = "any" then 20
  else if remotePreference = jobRemoteType then 20
  else if remotePreference = "hybrid" && (jobRemoteType = "remote" || jobRemoteType = "onsite")
  then 10
  else 5

/-- Embedding of `matchSalary(profile, salaryRange)` (`src/unnamed/part_000`
lines 227-236): neutral 5 when the profile has no salary floor or the
listing has no salary string; otherwise 10 when `parseSalary` meets the
floor and 0 when it does not. -/
def matchSalary (salaryMin : Nat) (salaryRange : String) : Nat :=
  if salaryMin = 0 || salaryRange = "" then 5
  else if (salaryMin : ℚ) ≤ parseSalary salaryRange then 10
  else 0

/-- Embedding of `matchJobType(profile, jobType)` (`src/unnamed/part_000`
lines 241-246). -/
def matchJobType (jobType : String) : Nat :=
  if jobType = "" then 3
  else if jobType = "full_time" || jobType = "full-time" then 5
  else 3

/-- The text the skill factor is computed over: `job.description || job.title`
(`src/unnamed/part_000` line 114) — the description, falling back to the
title only when the description is empty/absent. -/
def skillInputText (job : JobListing) : String :=
  if job.description = "" then job.title else job.description

/-- Embedding of `calculateMatchScore(profile, skills, desiredTitles, job)`
(`src/unnamed/part_000` lines 109-172). All five factors are integers, so
`Math.round(totalScore)` is the identity and the returned total is
`Math.min(100, totalScore)`. Reasons are pushed only for factors scoring
above zero, with the descriptions built by the code's template strings. -/
def calculateMatchScore (profile : UserProfile) (skills desiredTitles : List String)
    (job : JobListing) : Score :=
  let skillScore := matchSkills skills (skillInputText job)
  let titleScore := matchTitle desiredTitles job.title
  let locationScore := matchLocation profile.remotePreference job.remoteType
  let salaryScore := matchSalary profile.salaryMin job.salaryRange
  let typeScore := matchJobType job.jobType
  let reasons :=
    (if 0 < skillScore then
      [⟨"skill", "Skills match: " ++ toString skillScore ++ "/40 points", skillScore⟩] else []) ++
    (if 0 < titleScore then
      [⟨"title", "Title match: " ++ toString titleScore ++ "/25 points", titleScore⟩] else []) ++
    (if 0 < locationScore then
      [⟨"location", "Location match: " ++ toString locationScore ++ "/20 points", locationScore⟩]
     else []) ++
    (if 0 < salaryScore then
      [⟨"salary", "Salary match: " ++ toString salaryScore ++ "/10 points", salaryScore⟩] else []) ++
    (if 0 < typeScore then
      [⟨"type", "Job type match: " ++ toString typeScore ++ "/5 points", typeScore⟩] else [])
  ⟨min 100 (skillScore + titleScore + locationScore + salaryScore + typeScore), reasons⟩

/-! ## Match repository (`job_matches` inserts, `src/unnamed/part_000` and
`src/database/schema.sql`) -/

/-- Row of the `job_matches` table as written by `matchJobsForUser`
(`INSERT INTO job_matches (user_id, job_id, match_score, match_reasons)`).
The schema's `UNIQUE(user_id, job_id)` constraint keys the table on the
(candidate, listing) pair. -/
structure MatchRow where
  userId : Nat
  jobId : Nat
  matchScore : Nat
  matchReasons : List Reason
deriving DecidableEq, Repr

/-- Whether the table already holds a row for the (user, job) pair — the
condition under which the schema's `UNIQUE(user_id, job_id)` constraint
fires. -/
def hasKey (t : List MatchRow) (u j : Nat) : Bool :=
  t.any (fun r => r.userId = u && r.jobId = j)

/-- Number of rows the table holds for the (user, job) pair. -/
def countKey (t : List MatchRow) (u j : Nat) : Nat :=
  (t.filter (fun r => r.userId = u && r.jobId = j)).length

/-- SQL `INSERT INTO job_matches` against the `UNIQUE(user_id, job_id)`
constraint of `src/database/schema.sql`: without `ON CONFLICT DO NOTHING` a
duplicate key raises `unique_violation`; with it the insert is a silent
no-op. -/
def sqlInsertMatch (t : List MatchRow) (r : MatchRow) (onConflictDoNothing : Bool) :
    Except String (List MatchRow) :=
  if hasKey t r.userId r.jobId then
    if onConflictDoNothing then .ok t
    else .error "duplicate key value violates unique constraint"
  else .ok (t ++ [r])

/-- The insert performed by `matchJobsForUser` (`src/unnamed/part_000`
lines 73-79): `INSERT ... ON CONFLICT (user_id, job_id) DO NOTHING`. -/
def recordMatch (t : List MatchRow) (r : MatchRow) : Except String (List MatchRow) :=
  sqlInsertMatch t r true

/-- The table after a `recordMatch` call (which never errors, so the
fallback branch is dead). -/
def recordMatchStep (r : MatchRow) (t : List MatchRow) : List MatchRow :=
  match recordMatch t r with
  | .ok t' => t'
  | .error _ => t

/-! ## The `matchJobsForUser` loop (`src/unnamed/part_000` lines 23-104) -/

/-- One entry of the `matches` array `matchJobsForUser` returns. -/
structure MatchOut where
  jobId : Nat
  title : String
  company : String
  location : String
  matchScore : Nat
  matchReasons : List Reason
deriving DecidableEq, Repr

/-- Environment of one `matchJobsForUser` run: the outcome of the
`user_profiles` query, the outcome of the `job_listings` query (the SQL
filters `is_active`, the 30-day window and the `NOT IN job_matches`
subquery are the database's concern — the model takes the returned rows),
and, for each `job_matches` insert attempt in order, whether that insert
throws (`dbError` in the code). -/
structure DBEnv where
  profileQ : Except String (Option UserProfile)
  jobsQ : Except String (List JobListing)
  insertFails : Nat → Bool

/-- The `for (const job of jobs)` loop of `matchJobsForUser`
(`src/unnamed/part_000` lines 64-96): score each job; at 60 or more, try the
dedup insert (a throwing insert is caught, logged, and the match is not
pushed); after each job, break once `matches.length >= limit`. Arguments:
remaining jobs, index of the next insert attempt, current `job_matches`
table, accumulated `matches`. -/
def matchLoop (userId : Nat) (profile : UserProfile) (limit : Nat) (fails : Nat → Bool) :
    List JobListing → Nat → List MatchRow → List MatchOut → List MatchRow × List MatchOut
  | [], _, t, acc => (t, acc)
  | job :: rest, i, t, acc =>
    let score := calculateMatchScore profile profile.skills profile.desiredJobTitles job
    if 60 ≤ score.total then
      if fails i then
        if limit ≤ acc.length then (t, acc)
        else matchLoop userId profile limit fails rest (i + 1) t acc
      else
        let t' := recordMatchStep ⟨userId, job.id, score.total, score.reasons⟩ t
        let acc' := acc ++ [⟨job.id, job.title, job.company, job.location,
          score.total, score.reasons⟩]
        if limit ≤ acc'.length then (t', acc')
        else matchLoop userId profile limit fails rest (i + 1) t' acc'
    else
      if limit ≤ acc.length then (t, acc)
      else matchLoop userId profile limit fails rest (i + 1) t acc

/-- The `try` block of `matchJobsForUser`: an error from the profile query
or the jobs query propagates (`.error`); a missing profile returns `[]`
early; otherwise the loop runs. Returns the final `job_matches` table and
the `matches` array. -/
def matchBody (env : DBEnv) (userId limit : Nat) (t : List MatchRow) :
    Except String (List MatchRow × List MatchOut) :=
  match env.profileQ with
  | .error e => .error e
  | .ok none => .ok (t, [])
  | .ok (some profile) =>
    match env.jobsQ with
    | .error e => .error e
    | .ok jobs => .ok (matchLoop userId profile limit env.insertFails jobs 0 t [])

/-- Embedding of `matchJobsForUser(userId, limit)` (`src/unnamed/part_000`
lines 23-104): the whole body is wrapped in `try/catch`, and the catch
returns `[]` instead of rethrowing (the table is untouched by a failing
read, so it is returned as-is). -/
def matchJobsForUser (env : DBEnv) (userId limit : Nat) (t : List MatchRow) :
    List MatchRow × List MatchOut :=
  match matchBody env userId limit t with
  | .ok r => r
  | .error _ => (t, [])

/-! ## Review Gate (`reviewMatch` in `src/services/matchingServices.js` /
`src/unnamed/part_000`, and the review routes in
`src/services/guestApplication.js` and `src/unnamed/part_005`) -/

/-- Row of `job_matches` as the review paths see it: identity, owner,
listing, and the review-state columns `reviewed`, `approved`, `status`. -/
structure JobMatch where
  id : Nat
  userId : Nat
  jobId : Nat
  reviewed : Bool
  approved : Bool
  status : String
deriving DecidableEq, Repr

/-- Embedding of `reviewMatch(userId, matchId, approved)`
(`src/services/matchingServices.js` lines 355-370, identical in
`src/unnamed/part_000` lines 301-316):
`UPDATE job_matches SET reviewed = TRUE, approved = $1 WHERE id = $2 AND
user_id = $3 RETURNING *`, then `rows[0]`. The update is unconditional on
the row's current `reviewed` value. Returns the updated table and
`rows[0]` (`none` when no row matched). -/
def reviewMatchSvc (t : List JobMatch) (userId matchId : Nat) (approved : Bool) :
    List JobMatch × Option JobMatch :=
  let touched := fun (m : JobMatch) => m.id = matchId && m.userId = userId
  let upd := fun (m : JobMatch) =>
    if touched m then { m with reviewed := true, approved := approved } else m
  (t.map upd, ((t.filter touched).map upd).head?)

/-- The `UPDATE` of the guest review route (`src/services/guestApplication.js`
lines 278-284), which additionally sets `status` to `'approved'` or
`'rejected'`. -/
def reviewUpdateGuest (t : List JobMatch) (userId matchId : Nat) (approved : Bool) :
    List JobMatch × Option JobMatch :=
  let touched := fun (m : JobMatch) => m.id = matchId && m.userId = userId
  let upd := fun (m : JobMatch) =>
    if touched m then
      { m with reviewed := true, approved := approved,
               status := if approved then "approved" else "rejected" }
    else m
  (t.map upd, ((t.filter touched).map upd).head?)

/-- Row of `application_queue` as inserted by the review routes
(`INSERT INTO application_queue (user_id, job_id, match_id, status)` in the
guest route; `src/unnamed/part_005` inserts the match reference and status
only). -/
structure QueueRow where
  userId : Nat
  jobId : Nat
  matchId : Nat
  status : String
deriving DecidableEq, Repr

/-- Persistent state the review route touches: the `job_matches` table and
the `application_queue` table. -/
structure AppState where
  jobMatches : List JobMatch
  queue : List QueueRow
deriving DecidableEq, Repr

/-- HTTP outcome of the review route. -/
inductive RouteResult where
  | notFound
  | ok (m : JobMatch)
deriving DecidableEq, Repr

/-- Embedding of `PUT /track/:token/review-match/:matchId`
(`src/services/guestApplication.js` lines 256-310) after the
`typeof approved !== 'boolean'` guard (the model's `approved` is already a
boolean): resolve the tracking token to a user (`findUser`), run the blind
review update, 404 when no row was updated, and — only when `approved` —
insert one `application_queue` row referencing the match (its `job_id`
comes from the `SELECT job_id FROM job_matches WHERE id = $2` subquery,
i.e. the updated row's listing). -/
def reviewMatchRoute (findUser : String → Option Nat) (st : AppState) (token : String)
    (matchId : Nat) (approved : Bool) : AppState × RouteResult :=
  match findUser token with
  | none => (st, .notFound)
  | some userId =>
    let r := reviewUpdateGuest st.jobMatches userId matchId approved
    match r.2 with
    | none => ({ st with jobMatches := r.1 }, .notFound)
    | some m =>
      let q := if approved then st.queue ++ [⟨userId, m.jobId, matchId, "pending"⟩] else st.queue
      (⟨r.1, q⟩, .ok m)

/-- Number of `application_queue` rows referencing a match. -/
def countQueue (q : List QueueRow) (matchId : Nat) : Nat :=
  (q.filter (fun r => r.matchId = matchId)).length

/-! ## Application queue worker (`src/unnamed/part_001` lines 274-403) -/

/-- The `application_queue` record of a job as the worker updates it
(`status`, `error_message`, `retry_count`, `processed_at`). The transient
`'processing'` status written at the start of each attempt is overwritten
before the attempt ends and is not part of the per-attempt outcome. -/
structure ApplyJobRecord where
  status : String
  errorMessage : Option String
  retryCount : Nat
  processedAt : Bool
deriving DecidableEq, Repr

/-- The record `queueApplication` creates
(`INSERT INTO application_queue (job_match_id, status) VALUES ($1, 'pending')`,
`src/unnamed/part_001` lines 385-389). The BullMQ job is added with
`attempts: 3` and `backoff: { type: 'exponential', delay: 5000 }`
(lines 372-382). -/
def initialQueueRecord : ApplyJobRecord :=
  ⟨"pending", none, 0, false⟩

/-- BullMQ exponential backoff with base delay 5000 ms (the options set by
`queueApplication`): the delay before re-queueing a job whose
`attemptsMade` is `k` is `5000 * 2 ^ (k - 1)` — 5 s, 10 s, ... doubling. -/
def backoffDelay (attemptsMade : Nat) : Nat := 5000 * 2 ^ (attemptsMade - 1)

/-- Embedding of the worker/retry loop for one BullMQ job
(`applicationWorker`, `src/unnamed/part_001` lines 289-358, under the
queue options of `queueApplication`). `outcome k` is the result of the
external `applicationService.applyToJob` call during attempt `k` (1-based,
`k = job.attemptsMade`): `none` is success, `some e` a failure with error
message `e`. Per attempt: on success the record becomes `'completed'` with
`processed_at` set and the loop ends; on failure the record is updated to
`'failed'` with the error message and an incremented `retry_count`, and then
— only when `job.attemptsMade < 3` — the worker rethrows, so BullMQ
re-queues the job after `backoffDelay k`; otherwise the worker returns
normally and BullMQ never starts another attempt. Returns the number of
attempts that ran, the final record, and the list of backoff delays. -/
def runApplyJob (outcome : Nat → Option String) (k : Nat) (rec : ApplyJobRecord) :
    Nat × ApplyJobRecord × List Nat :=
  match outcome k with
  | none => (k, { rec with status := "completed", processedAt := true }, [])
  | some e =>
    let rec' : ApplyJobRecord :=
      { status := "failed", errorMessage := some e,
        retryCount := rec.retryCount + 1, processedAt := rec.processedAt }
    if h : k < 3 then
      let next := runApplyJob outcome (k + 1) rec'
      (next.1, next.2.1, backoffDelay k :: next.2.2)
    else (k, rec', [])
termination_by 3 - k

/-- Full lifecycle of one queued application job: enqueue with
`queueApplication`, then run attempts from `attemptsMade = 1`. -/
def applyJobLifecycle (outcome : Nat → Option String) : Nat × ApplyJobRecord × List Nat :=
  runApplyJob outcome 1 initialQueueRecord

/-! ## AI scoring service (`src/services/matchingServices.js` lines 165-313) -/

/-- Row of `job_listings` in the AI service's schema generation
(`title, description, location, salary, remote, job_type`). `location` and
`salary` are `Option String` because the code distinguishes null values
(`job.location?.`, `job.salary &&`); an empty string is kept separately
since `""` is also falsy in those tests. -/
structure AiJob where
  title : String
  description : String
  location : Option String
  salary : Option String
  remote : Bool
  jobType : String
deriving DecidableEq, Repr

/-- The `preferences` JSON blob the AI service reads. `none` models an
absent field (the code guards with `?.` / truthiness); `minSalary = 0`
models an absent or zero floor, both falsy. -/
structure AiPreferences where
  remote : Bool
  locations : Option (List String)
  minSalary : Nat
  jobTitles : Option (List String)
  employmentTypes : Option (List String)
deriving DecidableEq, Repr

/-- The parsed OpenAI response of `matchSkills(userProfile, jobDescription)`
(`src/services/matchingServices.js` lines 265-302): the model's list of
matched skills and its 0-1 score. `matchSkills` performs a network call to
`openai.chat.completions.create` at `temperature: 0.3`; the response is not
a function of the inputs, so it is an explicit oracle argument here. -/
structure AiSkillMatch where
  matched : List String
  score : ℚ
deriving DecidableEq, Repr

/-- One entry of the AI score's `reasons` array (weight on the 0-1 scale). -/
structure AiReason where
  type : String
  description : String
  weight : ℚ
deriving DecidableEq, Repr

/-- Result of the AI `calculateMatchScore`: total on the 0-1 scale (rounded
to two decimals), reasons, and the factor breakdown. -/
structure AiScore where
  total : ℚ
  reasons : List AiReason
  skills : ℚ
  location : ℚ
  salary : ℚ
  title : ℚ
  typeB : ℚ
deriving DecidableEq, Repr

/-- JavaScript `parseFloat(x.toFixed(2))` for non-negative `x`: round to two
decimal places. -/
def toFixed2 (q : ℚ) : ℚ := (⌊q * 100 + 1/2⌋ : ℚ) / 100

/-- Truthiness of an optional string in JavaScript: present and non-empty. -/
def strTruthy : Option String → Bool
  | some s => s ≠ ""
  | none => false

/-- Embedding of the AI `calculateMatchScore(userProfile, job, preferences)`
(`src/services/matchingServices.js` lines 165-260). The skill factor is
`skillMatch.score * 0.4` where `skillMatch` is the OpenAI response for
`(userProfile, job.title + ' ' + job.description)` — passed as the
`skillMatch` oracle argument. The remaining factors follow the code's
branches; the total is `Math.min(1.0, sum)` rounded to two decimals. -/
def calculateMatchScoreAI (userProfile : String) (job : AiJob) (preferences : AiPreferences)
    (skillMatch : AiSkillMatch) : AiScore :=
  let skillScore := skillMatch.score * 0.4
  let skillReasons :=
    if 0 < skillMatch.matched.length then
      [AiReason.mk "skill" ("Skills match: " ++ String.intercalate ", " skillMatch.matched)
        skillScore]
    else []
  let locPair : ℚ × List AiReason :=
    if preferences.remote && job.remote then
      (0.25, [⟨"location", "Remote work preference match", 0.25⟩])
    else if (preferences.locations.getD []).any (fun loc =>
        match job.location with
        | some l => jsIncludes (strLower l) (strLower loc)
        | none => false) then
      (0.25, [⟨"location", "Location match: " ++ (job.location.getD ""), 0.25⟩])
    else if strTruthy job.location then (0.1, [])
    else (0, [])
  let salPair : ℚ × List AiReason :=
    if strTruthy job.salary && decide (preferences.minSalary ≠ 0) then
      if (preferences.minSalary : ℚ) ≤ parseSalary (job.salary.getD "") then
        (0.15, [⟨"salary", "Salary meets minimum requirement", 0.15⟩])
      else (0.05, [])
    else (0.08, [])
  let titlePair : ℚ × List AiReason :=
    if (preferences.jobTitles.getD []).any (fun ttl =>
        jsIncludes (strLower job.title) (strLower ttl)) then
      (0.15, [⟨"title", "Title matches preference: " ++ job.title, 0.15⟩])
    else (0.05, [])
  let typePair : ℚ × List AiReason :=
    if (preferences.employmentTypes.getD []).contains job.jobType then
      (0.05, [⟨"type", "Employment type match: " ++ job.jobType, 0.05⟩])
    else (0, [])
  let total := min 1 (skillScore + locPair.1 + salPair.1 + titlePair.1 + typePair.1)
  ⟨toFixed2 total,
   skillReasons ++ locPair.2 ++ salPair.2 ++ titlePair.2 ++ typePair.2,
   skillScore, locPair.1, salPair.1, titlePair.1, typePair.1⟩

/-- The skill-overlap factor as the claim words it (for comparison with the
code's `matchSkills`): fraction of the candidate's skills found as a
case-insensitive substring of the listing's title+description text, scaled
linearly to the 40-point weight, contributing 0 for an empty skill set or
empty listing text. -/
def claimedSkillOverlap (skills : List String) (job : JobListing) : Nat :=
  let text := job.title ++ " " ++ job.description
  if skills.isEmpty || text = "" then 0
  else
    jsRoundNat
      (((skills.filter (fun sk => jsIncludes (strLower text) (strLower sk))).length : ℚ) /
        (skills.length : ℚ) * 40)

/-- The skill-overlap factor as the amended claim words it: the text
searched is the listing's description, with the title used only as a
fallback when the description is empty/absent. -/
def amendedSkillOverlap (skills : List String) (job : JobListing) : Nat :=
  let text := if job.description = "" then job.title else job.description
  if skills.isEmpty || text = "" then 0
  else
    jsRoundNat
      (((skills.filter (fun sk => jsIncludes (strLower text) (strLower sk))).length : ℚ) /
        (skills.length : ℚ) * 40)

/-! ## Supporting lemmas -/

/-- Normal form of the dedup insert: keep the table on a key conflict,
append the row otherwise. -/
theorem recordMatchStep_eq (t : List MatchRow) (r : MatchRow) :
    recordMatchStep r t = if hasKey t r.userId r.jobId then t else t ++ [r] := by
  simp only [recordMatchStep, recordMatch, sqlInsertMatch]
  cases h : hasKey t r.userId r.jobId <;> simp [h]

/-- A key whose row count is zero is absent. -/
theorem hasKey_false_of_countKey_zero (t : List MatchRow) (u j : Nat)
    (h : countKey t u j = 0) : hasKey t u j = false := by
  have hnil : List.filter (fun r => decide (r.userId = u) && decide (r.jobId = j)) t = [] :=
    List.length_eq_zero.mp h
  have hall := List.filter_eq_nil_iff.mp hnil
  simp only [hasKey, List.any_eq_false]
  intro x hx
  simpa using hall x hx

/-- Appending a row makes its key present. -/
theorem hasKey_append_self (t : List MatchRow) (r : MatchRow) :
    hasKey (t ++ [r]) r.userId r.jobId = true := by
  simp [hasKey, List.any_append]

/-- After inserting a row, the table has its key. -/
theorem hasKey_recordMatchStep (t : List MatchRow) (r : MatchRow) :
    hasKey (recordMatchStep r t) r.userId r.jobId = true := by
  rw [recordMatchStep_eq]
  by_cases h : hasKey t r.userId r.jobId = true
  · rw [if_pos h]; exact h
  · rw [if_neg h]; exact hasKey_append_self t r

/-- Inserting a row whose key is present is a no-op. -/
theorem recordMatchStep_of_hasKey (t : List MatchRow) (r : MatchRow)
    (h : hasKey t r.userId r.jobId = true) : recordMatchStep r t = t := by
  rw [recordMatchStep_eq, if_pos h]

/-- Iterating the dedup insert on a table that already has the key changes
nothing. -/
theorem iterate_recordMatchStep_fixed (r : MatchRow) (n : Nat) :
    ∀ (t : List MatchRow), hasKey t r.userId r.jobId = true →
      Nat.iterate (recordMatchStep r) n t = t := by
  induction n with
  | zero => intro t _; rfl
  | succ n ih =>
    intro t h
    rw [Function.iterate_succ_apply, recordMatchStep_of_hasKey t r h, ih t h]

/-- Membership in the table after a dedup insert: every row either was
there before or is the inserted row. -/
theorem mem_recordMatchStep (t : List MatchRow) (nr r : MatchRow)
    (h : r ∈ recordMatchStep nr t) : r ∈ t ∨ r = nr := by
  rw [recordMatchStep_eq] at h
  by_cases hk : hasKey t nr.userId nr.jobId = true
  · rw [if_pos hk] at h
    exact Or.inl h
  · rw [if_neg hk] at h
    rcases List.mem_append.mp h with h1 | h1
    · exact Or.inl h1
    · exact Or.inr (List.mem_singleton.mp h1)

/-! ## Claim theorems -/

/-- C1: recording a match for a (candidate, listing) pair whose key is not
yet in `job_matches` and then recording it any number of further times
leaves exactly one row for that pair, and one more duplicate `recordMatch`
(the `ON CONFLICT (user_id, job_id) DO NOTHING` insert) returns
successfully with the table unchanged — never an error, never a second
row. -/
theorem recordMatch_duplicate_is_noop (t : List MatchRow) (r : MatchRow) (n : Nat)
    (h : countKey t r.userId r.jobId = 0) :
    countKey (Nat.iterate (recordMatchStep r) (n + 1) t) r.userId r.jobId = 1 ∧
    recordMatch (Nat.iterate (recordMatchStep r) (n + 1) t) r =
      .ok (Nat.iterate (recordMatchStep r) (n + 1) t) := by
  have hk : hasKey t r.userId r.jobId = false := hasKey_false_of_countKey_zero t r.userId r.jobId h
  have hstep : recordMatchStep r t = t ++ [r] := by
    rw [recordMatchStep_eq, if_neg]
    simp [hk]
  have hone : Nat.iterate (recordMatchStep r) (n + 1) t = t ++ [r] := by
    rw [Function.iterate_succ_apply, hstep]
    exact iterate_recordMatchStep_fixed r n (t ++ [r]) (hasKey_append_self t r)
  have hcount : countKey (t ++ [r]) r.userId r.jobId = 1 := by
    simp only [countKey, List.filter_append, List.length_append]
    have h0 : (List.filter (fun x => decide (x.userId = r.userId) &&
        decide (x.jobId = r.jobId)) t).length = 0 := h
    simp [h0]
  refine ⟨by rw [hone]; exact hcount, ?_⟩
  rw [hone]
  simp only [recordMatch, sqlInsertMatch, hasKey_append_self t r, if_pos]

/-- C1 witness: a fresh pair inserted once and then once more ends with
exactly one row and a successful no-op duplicate call. -/
theorem recordMatch_duplicate_is_noop_witness :
    countKey (Nat.iterate (recordMatchStep ⟨1, 2, 75, []⟩) 2 []) 1 2 = 1 ∧
    recordMatch (Nat.iterate (recordMatchStep ⟨1, 2, 75, []⟩) 2 []) ⟨1, 2, 75, []⟩ =
      .ok (Nat.iterate (recordMatchStep ⟨1, 2, 75, []⟩) 2 []) :=
  recordMatch_duplicate_is_noop [] ⟨1, 2, 75, []⟩ 1 (by decide)

/-- The head of a filtered-and-mapped list, given a member satisfying the
filter: some satisfying element's image is returned. -/
theorem exists_head_filter_map {α : Type} (p : α → Bool) (f : α → α) (t : List α) (m : α)
    (hm : m ∈ t) (hp : p m = true) :
    ∃ y, y ∈ t ∧ p y = true ∧ ((t.filter p).map f).head? = some (f y) := by
  induction t with
  | nil => cases hm
  | cons a t ih =>
    by_cases ha : p a = true
    · exact ⟨a, List.mem_cons_self a t, ha, by simp [List.filter_cons, ha]⟩
    · rcases List.mem_cons.mp hm with rfl | hm'
      · exact absurd hp ha
      · rcases ih hm' with ⟨y, hy, hpy, hh⟩
        have haf : p a = false := Bool.eq_false_iff.mpr ha
        exact ⟨y, List.mem_cons_of_mem a hy, hpy, by simp [List.filter_cons, haf, hh]⟩

/-- C2 counterexample: calling `reviewMatch` on a match that is already
reviewed (here reviewed and approved) does not fail — it returns the
re-updated row — and it changes the stored state (the `approved` column is
overwritten from `true` to `false`). The claimed `AlreadyReviewed` error
does not exist in the code. -/
theorem reviewMatch_already_reviewed_cex :
    (reviewMatchSvc [⟨1, 1, 7, true, true, "approved"⟩] 1 1 false).2 =
      some ⟨1, 1, 7, true, false, "approved"⟩ ∧
    (reviewMatchSvc [⟨1, 1, 7, true, true, "approved"⟩] 1 1 false).1 ≠
      [⟨1, 1, 7, true, true, "approved"⟩] := by decide

/-- C2 (amended): `reviewMatch` on any match owned by the caller — reviewed
or not — succeeds and blindly overwrites the review state: the returned row
has `reviewed = TRUE` and `approved` set to the new flag; no
`AlreadyReviewed` error is ever raised. -/
theorem reviewMatch_blind_overwrite (t : List JobMatch) (userId matchId : Nat)
    (approved : Bool) (m : JobMatch) (hm : m ∈ t) (hid : m.id = matchId)
    (huid : m.userId = userId) :
    ∃ m', (reviewMatchSvc t userId matchId approved).2 = some m' ∧
      m'.reviewed = true ∧ m'.approved = approved := by
  have hp : (decide (m.id = matchId) && decide (m.userId = userId)) = true := by
    simp [hid, huid]
  rcases exists_head_filter_map (fun x => decide (x.id = matchId) && decide (x.userId = userId))
      (fun x => if decide (x.id = matchId) && decide (x.userId = userId) then
        { x with reviewed := true, approved := approved } else x) t m hm hp with
    ⟨y, _, hpy, hh⟩
  refine ⟨{ y with reviewed := true, approved := approved }, ?_, rfl, rfl⟩
  show ((t.filter _).map _).head? = _
  rw [hh, if_pos hpy]

/-- C2 witness: a concrete already-reviewed match is blindly overwritten. -/
theorem reviewMatch_blind_overwrite_witness :
    ∃ m', (reviewMatchSvc [⟨1, 1, 7, true, true, "approved"⟩] 1 1 false).2 = some m' ∧
      m'.reviewed = true ∧ m'.approved = false :=
  reviewMatch_blind_overwrite [⟨1, 1, 7, true, true, "approved"⟩] 1 1 false
    ⟨1, 1, 7, true, true, "approved"⟩ (List.mem_singleton.mpr rfl) rfl rfl

/-- C3 counterexample: approving the same match through the review route
twice inserts two `application_queue` rows referencing it — the "no
sequence of review calls creates more than one queued ApplyJob" part of the
claim fails, because re-review is not blocked and each approval inserts
unconditionally. -/
theorem review_route_double_approve_cex :
    countQueue
      ((reviewMatchRoute (fun _ => some 1)
          ((reviewMatchRoute (fun _ => some 1)
              ⟨[⟨1, 1, 7, false, false, "pending"⟩], []⟩ "tok" 1 true).1)
          "tok" 1 true).1).queue 1 = 2 := by decide

/-- C3 (amended): each single review-route call that approves an existing
match appends exactly one `application_queue` row referencing that match,
and a rejecting or failing call appends none; since re-review is not
blocked, repeated approvals enqueue one row each. -/
theorem review_route_enqueue_per_call (findUser : String → Option Nat) (st : AppState)
    (token : String) (matchId : Nat) (approved : Bool) :
    countQueue ((reviewMatchRoute findUser st token matchId approved).1).queue matchId =
      countQueue st.queue matchId +
        (match (reviewMatchRoute findUser st token matchId approved).2, approved with
         | .ok _, true => 1
         | _, _ => 0) ∧
    ((reviewMatchRoute findUser st token matchId approved).1).queue.length =
      st.queue.length +
        (match (reviewMatchRoute findUser st token matchId approved).2, approved with
         | .ok _, true => 1
         | _, _ => 0) := by
  unfold reviewMatchRoute
  cases findUser token with
  | none => simp
  | some uid =>
    cases hr : (reviewUpdateGuest st.jobMatches uid matchId approved).2 with
    | none => simp [hr]
    | some m =>
      cases approved with
      | false => simp [hr]
      | true => simp [hr, countQueue, List.filter_append]

/-- C7: for every profile, skills, desired titles and listing, the total
returned by the basic scoring engine lies within the declared 0-100 bound
(the factor sum is clamped by `Math.min(100, ...)`, and all factors are
non-negative integers). -/
theorem calculateMatchScore_total_bounded (profile : UserProfile)
    (skills desiredTitles : List String) (job : JobListing) :
    (calculateMatchScore profile skills desiredTitles job).total ≤ 100 ∧
    0 ≤ (calculateMatchScore profile skills desiredTitles job).total :=
  ⟨Nat.min_le_left _ _, Nat.zero_le _⟩

/-- C10: `matchJobsForUser` never propagates an exception: when the user
has no profile row it returns the empty match list (with the table
untouched), and when any step of its body throws — here, the profile or
jobs query erroring — the surrounding `catch` returns the empty match list
instead of rethrowing. -/
theorem matchJobsForUser_never_throws (env : DBEnv) (userId limit : Nat) (t : List MatchRow) :
    (env.profileQ = .ok none → matchJobsForUser env userId limit t = (t, [])) ∧
    (∀ e, matchBody env userId limit t = .error e →
      matchJobsForUser env userId limit t = (t, [])) := by
  constructor
  · intro h
    simp [matchJobsForUser, matchBody, h]
  · intro e h
    simp [matchJobsForUser, h]

/-- C10 witness: a user without a profile row, and a run whose profile
query errors, both yield the empty match list. -/
theorem matchJobsForUser_never_throws_witness :
    matchJobsForUser ⟨.ok none, .ok [], fun _ => false⟩ 1 10 [] = ([], []) ∧
    matchJobsForUser ⟨.error "db down", .ok [], fun _ => false⟩ 1 10 [] = ([], []) :=
  ⟨(matchJobsForUser_never_throws ⟨.ok none, .ok [], fun _ => false⟩ 1 10 []).1 rfl,
   (matchJobsForUser_never_throws ⟨.error "db down", .ok [], fun _ => false⟩ 1 10 []).2
     "db down" rfl⟩

/-- A failing attempt below the maximum: the record is marked failed with
the error, the worker rethrows, and BullMQ re-queues after the exponential
backoff delay before the next attempt runs. -/
theorem runApplyJob_fail_retry (outcome : Nat → Option String) (k : Nat)
    (rec : ApplyJobRecord) (e : String) (ho : outcome k = some e) (hk : k < 3) :
    runApplyJob outcome k rec =
      ((runApplyJob outcome (k + 1)
          ⟨"failed", some e, rec.retryCount + 1, rec.processedAt⟩).1,
       (runApplyJob outcome (k + 1)
          ⟨"failed", some e, rec.retryCount + 1, rec.processedAt⟩).2.1,
       backoffDelay k ::
         (runApplyJob outcome (k + 1)
           ⟨"failed", some e, rec.retryCount + 1, rec.processedAt⟩).2.2) := by
  rw [runApplyJob]
  simp [ho, hk]

/-- A failing attempt at the maximum: the record stays failed with the last
error and the worker returns normally, so no further attempt starts. -/
theorem runApplyJob_fail_last (outcome : Nat → Option String) (rec : ApplyJobRecord)
    (e : String) (ho : outcome 3 = some e) :
    runApplyJob outcome 3 rec = (3, ⟨"failed", some e, rec.retryCount + 1, rec.processedAt⟩, []) := by
  rw [runApplyJob]
  simp [ho]

/-- C4: a job whose external apply call fails on every one of its three
attempts runs exactly three attempts — the two retries re-queued with
exponential backoff of 5000 ms then 10000 ms (base 5 s, doubling) — ends
with status `'failed'`, `retry_count = 3` and the last error message
persisted, and is never retried again: the result holds for every
continuation of `outcome` past attempt 3, so no fourth attempt is ever
consulted. -/
theorem applyJob_fail_exhaustion (outcome : Nat → Option String) (e1 e2 e3 : String)
    (h1 : outcome 1 = some e1) (h2 : outcome 2 = some e2) (h3 : outcome 3 = some e3) :
    applyJobLifecycle outcome = (3, ⟨"failed", some e3, 3, false⟩, [5000, 10000]) := by
  unfold applyJobLifecycle
  rw [runApplyJob_fail_retry outcome 1 initialQueueRecord e1 h1 (by norm_num)]
  rw [runApplyJob_fail_retry outcome 2 _ e2 h2 (by norm_num)]
  rw [runApplyJob_fail_last outcome _ e3 h3]
  simp [initialQueueRecord, backoffDelay]

/-- C4 witness: the always-failing collaborator exhausts the job. -/
theorem applyJob_fail_exhaustion_witness :
    applyJobLifecycle (fun _ => some "apply failed") =
      (3, ⟨"failed", some "apply failed", 3, false⟩, [5000, 10000]) :=
  applyJob_fail_exhaustion (fun _ => some "apply failed") "apply failed" "apply failed"
    "apply failed" rfl rfl rfl

/-- Every row of the table after the `matchJobsForUser` loop either was
already in the table or is a newly created match with score at least 60. -/
theorem matchLoop_mem (userId : Nat) (profile : UserProfile) (limit : Nat)
    (fails : Nat → Bool) :
    ∀ (jobs : List JobListing) (i : Nat) (t : List MatchRow) (acc : List MatchOut)
      (r : MatchRow),
      r ∈ (matchLoop userId profile limit fails jobs i t acc).1 →
      r ∈ t ∨ 60 ≤ r.matchScore := by
  intro jobs
  induction jobs with
  | nil => intro i t acc r hr; exact Or.inl hr
  | cons job rest ih =>
    intro i t acc r hr
    rw [matchLoop] at hr
    set score := calculateMatchScore profile profile.skills profile.desiredJobTitles job with hs
    by_cases h60 : 60 ≤ score.total
    · rw [if_pos h60] at hr
      by_cases hf : fails i = true
      · rw [if_pos hf] at hr
        by_cases hlim : limit ≤ acc.length
        · rw [if_pos hlim] at hr; exact Or.inl hr
        · rw [if_neg hlim] at hr; exact ih (i + 1) t acc r hr
      · rw [if_neg hf] at hr
        by_cases hlim : limit ≤ (acc ++ [(⟨job.id, job.title, job.company, job.location,
            score.total, score.reasons⟩ : MatchOut)]).length
        · rw [if_pos hlim] at hr
          rcases mem_recordMatchStep t ⟨userId, job.id, score.total, score.reasons⟩ r hr with
            h | h
          · exact Or.inl h
          · exact Or.inr (by rw [h]; exact h60)
        · rw [if_neg hlim] at hr
          rcases ih (i + 1) _ _ r hr with h | h
          · rcases mem_recordMatchStep t ⟨userId, job.id, score.total, score.reasons⟩ r h with
              h' | h'
            · exact Or.inl h'
            · exact Or.inr (by rw [h']; exact h60)
          · exact Or.inr h
    · rw [if_neg h60] at hr
      by_cases hlim : limit ≤ acc.length
      · rw [if_pos hlim] at hr; exact Or.inl hr
      · rw [if_neg hlim] at hr; exact ih (i + 1) t acc r hr

/-- C6: a `job_matches` row is only created for a pair scoring at least the
60-point minimum: every row of the table after a `matchJobsForUser` run
either predates the run or has `match_score ≥ 60`; in particular a pair
whose computed total is below 60 never gets a row, and a table whose rows
all have score at least 60 keeps that invariant. -/
theorem matchJobsForUser_threshold (env : DBEnv) (userId limit : Nat)
    (t : List MatchRow) (r : MatchRow)
    (hr : r ∈ (matchJobsForUser env userId limit t).1) :
    r ∈ t ∨ 60 ≤ r.matchScore := by
  unfold matchJobsForUser matchBody at hr
  cases hp : env.profileQ with
  | error e => rw [hp] at hr; exact Or.inl hr
  | ok po =>
    cases po with
    | none => rw [hp] at hr; exact Or.inl hr
    | some profile =>
      cases hj : env.jobsQ with
      | error e => rw [hp, hj] at hr; exact Or.inl hr
      | ok jobs =>
        rw [hp, hj] at hr
        exact matchLoop_mem userId profile limit env.insertFails jobs 0 t [] r hr

/-- C6 witness: a pre-existing row of score 70 stays and satisfies the
disjunction. -/
theorem matchJobsForUser_threshold_witness :
    (⟨1, 2, 70, []⟩ : MatchRow) ∈ [(⟨1, 2, 70, []⟩ : MatchRow)] ∨
      60 ≤ (⟨1, 2, 70, []⟩ : MatchRow).matchScore :=
  matchJobsForUser_threshold ⟨.ok none, .ok [], fun _ => false⟩ 1 10
    [⟨1, 2, 70, []⟩] ⟨1, 2, 70, []⟩ (by decide)

/-- C5 counterexample: the AI scoring function of
`src/services/matchingServices.js` is not a function of (profile, listing,
preferences) alone: with identical profile text, listing and preferences,
two different OpenAI responses for the skill factor yield different totals
(0.13 versus 0.53), so two calls with identical inputs need not return an
identical result. -/
theorem calculateMatchScoreAI_oracle_cex :
    (calculateMatchScoreAI "profile" ⟨"T", "", none, none, false, "x"⟩
        ⟨false, none, 0, none, none⟩ ⟨[], 0⟩).total ≠
    (calculateMatchScoreAI "profile" ⟨"T", "", none, none, false, "x"⟩
        ⟨false, none, 0, none, none⟩ ⟨["python"], 1⟩).total := by
  norm_num [calculateMatchScoreAI, toFixed2, strTruthy, Option.getD]

/-- C5 (amended): the basic scoring engine of `src/unnamed/part_000` is a
pure function of the profile, skills, desired titles and listing — two
calls with identical inputs return an identical result (same total and
same reasons list); the AI scoring engine of
`src/services/matchingServices.js` additionally depends on an OpenAI
response and is not deterministic in those inputs. -/
theorem calculateMatchScore_deterministic (p p' : UserProfile) (s s' dt dt' : List String)
    (j j' : JobListing) (hp : p = p') (hs : s = s') (hdt : dt = dt') (hj : j = j') :
    calculateMatchScore p s dt j = calculateMatchScore p' s' dt' j' := by
  rw [hp, hs, hdt, hj]

/-- C5 witness: two identical concrete calls agree. -/
theorem calculateMatchScore_deterministic_witness :
    calculateMatchScore ⟨["python"], ["engineer"], "remote", 0⟩ ["python"] ["engineer"]
        ⟨1, "Senior Python Engineer", "Acme", "NYC", "python and react", "", "remote",
          "full_time"⟩ =
      calculateMatchScore ⟨["python"], ["engineer"], "remote", 0⟩ ["python"] ["engineer"]
        ⟨1, "Senior Python Engineer", "Acme", "NYC", "python and react", "", "remote",
          "full_time"⟩ :=
  calculateMatchScore_deterministic _ _ _ _ _ _ _ _ rfl rfl rfl rfl

/-- C8 counterexample: the skill factor is computed over
`job.description || job.title`, not over title+description. For skills
`["python"]` and a listing titled "Python Engineer" whose description is
"We use Java daily", the claim's title+description reading yields the full
40 points while the code yields 0: the title is ignored whenever a
description is present. -/
theorem matchSkills_ignores_title_cex :
    matchSkills ["python"]
        (skillInputText
          ⟨1, "Python Engineer", "Acme", "", "We use Java daily", "", "remote", "full_time"⟩)
      = 0 ∧
    claimedSkillOverlap ["python"]
        ⟨1, "Python Engineer", "Acme", "", "We use Java daily", "", "remote", "full_time"⟩
      = 40 := by
  have htext : skillInputText
      ⟨1, "Python Engineer", "Acme", "", "We use Java daily", "", "remote", "full_time"⟩ =
      "We use Java daily" := by
    simp only [skillInputText]
    rw [if_neg (by decide)]
  have hinc : jsIncludes (strLower "We use Java daily") (strLower "python") = false := by decide
  have hinc2 : jsIncludes (strLower ("Python Engineer" ++ " " ++ "We use Java daily"))
      (strLower "python") = true := by decide
  constructor
  · rw [htext]
    simp only [matchSkills]
    rw [if_neg (by decide)]
    simp only [List.filter, hinc]
    simp only [List.length_nil, List.length_cons]
    exact jsRoundNat_eq _ 0 (by norm_num)
  · simp only [claimedSkillOverlap]
    rw [if_neg (by decide)]
    simp only [List.filter, hinc2]
    simp only [List.length_nil, List.length_cons]
    exact jsRoundNat_eq _ 40 (by norm_num)

/-- C8 (amended): the skill-overlap factor equals the fraction of the
candidate's skills occurring as a case-insensitive substring of the
listing's description — with the title used only as a fallback when the
description is empty/absent — scaled linearly to the 40-point weight;
empty skill set or empty effective text contributes 0. -/
theorem matchSkills_description_fallback (skills : List String) (job : JobListing) :
    matchSkills skills (skillInputText job) = amendedSkillOverlap skills job := by
  unfold matchSkills amendedSkillOverlap skillInputText
  by_cases hd : job.description = ""
  · simp [hd]
  · simp [hd]

/-- C9 counterexample: for a profile with salary floor 50000, the
unparseable salary string "competitive" scores 0 — exactly the same as the
below-floor salary "$40,000" — not the claimed neutral mid-weight: a
present but unparseable salary string is conflated with a salary below the
floor (`parseSalary` returns 0, which fails the floor comparison). -/
theorem matchSalary_unparseable_cex :
    matchSalary 50000 "competitive" = 0 ∧ matchSalary 50000 "$40,000" = 0 := by
  have hc : parseSalaryCore "competitive".data = none := by decide
  have hp : parseSalary "competitive" = 0 := by simp [parseSalary, hc]
  have hg : parseSalaryCore "$40,000".data = some ("40000".data, []) := by decide
  have hd40 : digitsToNat "40000".data = 40000 := by decide
  have hp2 : parseSalary "$40,000" = 40000 := by
    simp [parseSalary, hg, hd40, digitsToNat]
  constructor
  · simp only [matchSalary]
    rw [if_neg (by decide), if_neg (by rw [hp]; norm_num)]
  · simp only [matchSalary]
    rw [if_neg (by decide), if_neg (by rw [hp2]; norm_num)]

/-- C9 (amended): the salary factor is the neutral 5 when the profile has
no (or a zero) salary floor or the listing's salary string is absent/empty;
when both are present it is the full 10 iff `parseSalary` of the string
meets the floor and 0 otherwise — so a present but unparseable string,
which parses to 0, scores 0 like a below-floor salary. -/
theorem matchSalary_characterization (salaryMin : Nat) (s : String) :
    (salaryMin = 0 ∨ s = "" → matchSalary salaryMin s = 5) ∧
    (salaryMin ≠ 0 → s ≠ "" → (salaryMin : ℚ) ≤ parseSalary s → matchSalary salaryMin s = 10) ∧
    (salaryMin ≠ 0 → s ≠ "" → parseSalary s < salaryMin → matchSalary salaryMin s = 0) := by
  refine ⟨?_, ?_, ?_⟩
  · intro h
    unfold matchSalary
    rcases h with h | h <;> simp [h]
  · intro h1 h2 h3
    unfold matchSalary
    rw [if_neg (by simp [h1, h2]), if_pos h3]
  · intro h1 h2 h3
    unfold matchSalary
    rw [if_neg (by simp [h1, h2]), if_neg (not_le.mpr h3)]

/-- C9 witness: no floor gives the neutral 5; a parsed salary meeting a
50000 floor gives 10; one below it gives 0. -/
theorem matchSalary_characterization_witness :
    matchSalary 0 "anything" = 5 ∧ matchSalary 50000 "$60,000" = 10 ∧
      matchSalary 50000 "$39,000" = 0 := by
  have hg1 : parseSalaryCore "$60,000".data = some ("60000".data, []) := by decide
  have hd60 : digitsToNat "60000".data = 60000 := by decide
  have hp1 : parseSalary "$60,000" = 60000 := by
    simp [parseSalary, hg1, hd60, digitsToNat]
  have hg2 : parseSalaryCore "$39,000".data = some ("39000".data, []) := by decide
  have hd39 : digitsToNat "39000".data = 39000 := by decide
  have hp2 : parseSalary "$39,000" = 39000 := by
    simp [parseSalary, hg2, hd39, digitsToNat]
  refine ⟨(matchSalary_characterization 0 "anything").1 (Or.inl rfl),
    (matchSalary_characterization 50000 "$60,000").2.1 (by norm_num) (by decide)
      (by rw [hp1]; norm_num),
    (matchSalary_characterization 50000 "$39,000").2.2 (by norm_num) (by decide)
      (by rw [hp2]; norm_num)⟩
